import Mathlib

set_option linter.unnecessarySeqFocus false

/-!
Shallow embedding of the ss-bot disaster reporting system
(telegram_bot.py, app.py, supabase_client.py) and verification of its
specification claims.

Modelling conventions:
* Python floats carried in coordinates are modelled as exact rationals (ℚ);
  the embedded code never performs arithmetic on them, only stores and
  compares presence.
* Wall-clock values (`timestamp`, `created_at`, `updated_at`) are written by
  the source but never branched on; they are not modelled.
* External collaborators (the Supabase inserts, the uuid generator, the
  Telegram file download) are parameters: a Boolean for whether an insert
  succeeded, a string for the generated report id / file path.
-/

namespace SSBot

/-- Telegram user identity (`update.effective_user.id`). -/
abbrev UserId := Nat

/-- The `DISASTER_TYPES` list from telegram_bot.py. -/
def DISASTER_TYPES : List String :=
  ["Earthquake", "Flood", "Fire", "Landslide", "Cyclone",
   "Accident", "Medical Emergency", "Other"]

/-- The `SEVERITY_LEVELS` list from telegram_bot.py. -/
def SEVERITY_LEVELS : List String := ["Low", "Medium", "High", "Critical"]

/-- Photo info stored by `handle_photo` (the Telegram `file_id` plus the
downloaded `file_path`). -/
structure Photo where
  file_id : String
  file_path : String
deriving DecidableEq, Repr

/-- The `report_data` dict accumulated inside a session and posted to the
backend.  Every key is optional, mirroring the Python dict: `none` means the
key is absent. -/
structure ReportData where
  user_id : Option UserId := none
  username : Option String := none
  disaster_type : Option String := none
  severity : Option String := none
  latitude : Option ℚ := none
  longitude : Option ℚ := none
  description : Option String := none
  photos : Option (List Photo) := none
deriving DecidableEq, Repr

/-- The `step` strings stored in a session by telegram_bot.py. -/
inductive Step where
  | disaster_type
  | severity
  | location
  | description
  | photos
  | emergency_location
deriving DecidableEq, Repr

/-- One entry of `self.user_sessions`. -/
structure Session where
  step : Step
  report_data : ReportData
deriving DecidableEq, Repr

/-- The `self.user_sessions` dict: map from user id to session (`none` = no entry). -/
def BotState := UserId → Option Session

/-- Point update of the session map (assignment / `del` on the dict). -/
def setSession (st : BotState) (uid : UserId) (s : Option Session) : BotState :=
  fun u => if u = uid then s else st u

/-- The finalized report row (`db_data` built in
`DisasterReportService.create_report`). -/
structure Report where
  id : String
  user_id : String
  username : String
  disaster_type : String
  severity : String
  latitude : ℚ
  longitude : ℚ
  description : String
  photos : List Photo
  status : String
  source : String
deriving DecidableEq, Repr

/-- Result dict of `EmergencyNotificationService.trigger_emergency_alert`. -/
structure AlertResult where
  success : Bool
  alert_id : Option String
deriving DecidableEq, Repr

/-- Embedding of `EmergencyNotificationService.trigger_emergency_alert`: builds an alert
row from the stored report and inserts it into `emergency_alerts`;
`alertInsertOk` models whether that insert returned rows (an exception or an
empty result are both caught and reported as failure).  The `aid` string
stands for the id the store assigns to the alert row. -/
def trigger_emergency_alert (_r : Report) (alertInsertOk : Bool)
    (aid : String) : AlertResult :=
  if alertInsertOk then { success := true, alert_id := some aid }
  else { success := false, alert_id := none }

/-- Embedding of `DisasterReportService.create_report`.  `rid` stands for the generated
uuid fragment, `insertOk` for whether the Supabase insert returned rows.
Accessing a missing required key (`report_data['disaster_type']`, …) raises
`KeyError` in Python, which the wrapping `except` turns into a failure
result: those are the `none` cases here.  `float()` on an already numeric
value is the identity. -/
def service_create_report (rid : String) (d : ReportData) (insertOk : Bool) :
    Option Report :=
  match d.user_id, d.disaster_type, d.severity, d.latitude, d.longitude with
  | some uid, some dt, some sev, some lat, some lng =>
    if insertOk then
      some { id := rid
             user_id := toString uid
             username := d.username.getD "Anonymous"
             disaster_type := dt
             severity := sev
             latitude := lat
             longitude := lng
             description := d.description.getD ""
             photos := d.photos.getD []
             status := "Pending"
             source := "Telegram Bot" }
    else none
  | _, _, _, _, _ => none

/-- The `required_fields` presence check of `app.create_report`
(`['user_id', 'disaster_type', 'severity', 'latitude', 'longitude']`). -/
def missingRequired (d : ReportData) : Bool :=
  d.user_id.isNone || d.disaster_type.isNone || d.severity.isNone ||
  d.latitude.isNone || d.longitude.isNone

/-- Outcome of a `POST /api/reports` request handled by `app.create_report`:
the HTTP status, the stored report returned in the body (on 201), how many
times `trigger_emergency_alert` was invoked, and the (discarded) result of
that invocation. -/
structure ApiResult where
  status : Nat
  report : Option Report
  alertCalls : Nat
  alertResult : Option AlertResult
deriving DecidableEq, Repr

/-- Embedding of `app.create_report` (route `POST /api/reports`): rejects with 400 when a
required field is absent, otherwise calls the report service; on service
success it triggers the emergency alert exactly when the incoming severity is
`Critical` — and discards the alert's return value (app.py line 34) — then
answers 201; on service failure it answers 500. -/
def create_report (d : ReportData) (rid : String) (insertOk : Bool)
    (alertInsertOk : Bool) : ApiResult :=
  if missingRequired d then
    { status := 400, report := none, alertCalls := 0, alertResult := none }
  else
    match service_create_report rid d insertOk with
    | some r =>
      if d.severity = some "Critical" then
        { status := 201, report := some r, alertCalls := 1
          alertResult := some (trigger_emergency_alert r alertInsertOk "A1") }
      else
        { status := 201, report := some r, alertCalls := 0, alertResult := none }
    | none =>
      { status := 500, report := none, alertCalls := 0, alertResult := none }

/-- Prefix test on character lists: `isPrefixChars p s` holds when `p` is an
initial segment of `s`. -/
def isPrefixChars : List Char → List Char → Bool
  | [], _ => true
  | _ :: _, [] => false
  | p :: ps, c :: cs => p = c && isPrefixChars ps cs

/-- Python `str.startswith`, used on the callback payloads.  (Defined over
the character list so that the kernel can evaluate it; it agrees with the
library `String.startsWith` on every input.) -/
def pyStartsWith (s pre : String) : Bool := isPrefixChars pre.data s.data

/-- Worker for `pyReplace`; the fuel argument (the length of the scanned
list) makes the recursion structural. -/
def replaceChars : Nat → List Char → List Char → List Char → List Char
  | 0, s, _, _ => s
  | _ + 1, [], _, _ => []
  | n + 1, c :: cs, pat, rep =>
    if isPrefixChars pat (c :: cs) then
      rep ++ replaceChars n (List.drop pat.length (c :: cs)) pat rep
    else
      c :: replaceChars n cs pat rep

/-- Python `str.replace`: replaces every non-overlapping occurrence of
`pat`, scanning left to right.  All uses in the embedded code have a
non-empty `pat` (`"type_"`, `"severity_"`). -/
def pyReplace (s pat rep : String) : String :=
  String.mk (replaceChars s.data.length s.data pat.data rep.data)

/-- The replies the bot sends back through the chat transport, reduced to
their kind (the message texts themselves are never branched on). -/
inductive Msg where
  | silent
  | typePrompt
  | emergencyPrompt
  | sessionExpired
  | severityPrompt
  | locationPrompt
  | descriptionPrompt
  | photosPrompt
  | photoReceived
  | hintStart
  | helpText
  | myReports
  | submitSuccess
  | submitError
deriving DecidableEq, Repr

/-- Embedding of `DisasterReportBot.start_report`: (re)creates the session at step
`disaster_type` with a fresh `report_data` dict holding only the user's
identity, and shows the disaster-type keyboard. -/
def start_report (st : BotState) (uid : UserId) (uname : String) :
    BotState × Msg :=
  (setSession st uid (some
     { step := .disaster_type
       report_data := { user_id := some uid, username := some uname } }),
   .typePrompt)

/-- Embedding of `DisasterReportBot.emergency_report`: (re)creates the session at step
`emergency_location` with `disaster_type`/`severity` pre-filled, and asks
for the location. -/
def emergency_report (st : BotState) (uid : UserId) (uname : String) :
    BotState × Msg :=
  (setSession st uid (some
     { step := .emergency_location
       report_data := { user_id := some uid, username := some uname
                        disaster_type := some "Emergency"
                        severity := some "Critical" } }),
   .emergencyPrompt)

/-- Embedding of `DisasterReportBot.button_callback`: without a session, replies
"Session expired"; with one, a payload starting with `type_` stores the rest
of the payload (Python `str.replace` of every occurrence) as the disaster
type and moves to step `severity`, a payload starting with `severity_`
stores the severity and moves to step `location`; any other payload does
nothing at all. -/
def button_callback (st : BotState) (uid : UserId) (data : String) :
    BotState × Msg :=
  match st uid with
  | none => (st, .sessionExpired)
  | some s =>
    if pyStartsWith data "type_" then
      (setSession st uid (some
         { step := .severity
           report_data := { s.report_data with
             disaster_type := some (pyReplace data "type_" "") } }),
       .severityPrompt)
    else if pyStartsWith data "severity_" then
      (setSession st uid (some
         { step := .location
           report_data := { s.report_data with
             severity := some (pyReplace data "severity_" "") } }),
       .locationPrompt)
    else (st, .silent)

/-- Outcome of a handler that may reach the backend: the new session map,
the reply, and the `POST /api/reports` interaction if one happened. -/
structure SubmitOut where
  state : BotState
  msg : Msg
  api : Option ApiResult

/-- Embedding of `DisasterReportBot.submit_report`: posts the session's `report_data` to
the in-repo backend (`app.create_report`); a 201 answer yields the success
message, anything else raises and is caught, yielding the error message.
The `finally` clause deletes the session unconditionally.  (A transport
failure of the POST itself lands in the same `except`/`finally` path as a
non-201 answer and is subsumed by `insertOk = false`.) -/
def submit_report (st : BotState) (uid : UserId) (rid : String)
    (insertOk alertInsertOk : Bool) : SubmitOut :=
  match st uid with
  | none => { state := st, msg := .silent, api := none }
  | some s =>
    let api := create_report s.report_data rid insertOk alertInsertOk
    { state := setSession st uid none
      msg := if api.status = 201 then .submitSuccess else .submitError
      api := some api }

/-- Embedding of `DisasterReportBot.handle_location`: without a session, replies
"Session expired"; with one, stores the coordinates (no range check) and
sets `session['step'] = 'description'` (source line 202), then tests
`session['step'] == 'emergency_location'` (source line 211) — reading the
value just written, so the immediate-submit branch is modelled exactly as
the source has it, on the updated session. -/
def handle_location (st : BotState) (uid : UserId) (lat lng : ℚ)
    (rid : String) (insertOk alertInsertOk : Bool) : SubmitOut :=
  match st uid with
  | none => { state := st, msg := .sessionExpired, api := none }
  | some s =>
    let s' : Session :=
      { step := .description
        report_data := { s.report_data with
          latitude := some lat, longitude := some lng } }
    let st' := setSession st uid (some s')
    if s'.step = .emergency_location then
      submit_report st' uid rid insertOk alertInsertOk
    else
      { state := st', msg := .descriptionPrompt, api := none }

/-- Embedding of `DisasterReportBot.handle_message`: the four menu button texts dispatch
to their handlers before any session check; otherwise, without a session the
bot replies with the restart hint; with one, at step `description` any text
(with "Skip Description" replaced by the placeholder) is stored as the
description and the step moves to `photos`; otherwise only the exact text
"Submit Report" does anything (it submits). -/
def handle_message (st : BotState) (uid : UserId) (uname : String)
    (text : String) (rid : String) (insertOk alertInsertOk : Bool) :
    SubmitOut :=
  if text = "🚨 Report Disaster" then
    { state := (start_report st uid uname).1
      msg := (start_report st uid uname).2, api := none }
  else if text = "🆘 Emergency" then
    { state := (emergency_report st uid uname).1
      msg := (emergency_report st uid uname).2, api := none }
  else if text = "ℹ️ Help" then
    { state := st, msg := .helpText, api := none }
  else if text = "📊 My Reports" then
    { state := st, msg := .myReports, api := none }
  else
    match st uid with
    | none => { state := st, msg := .hintStart, api := none }
    | some s =>
      if s.step = .description then
        { state := setSession st uid (some
            { step := .photos
              report_data := { s.report_data with
                description := some (if text = "Skip Description"
                  then "No description provided" else text) } })
          msg := .photosPrompt, api := none }
      else if text = "Submit Report" then
        submit_report st uid rid insertOk alertInsertOk
      else
        { state := st, msg := .silent, api := none }

/-- Embedding of `DisasterReportBot.handle_photo`: silently ignored without a session or
outside step `photos`; at step `photos` the photo reference is appended to
the `photos` list (created on first use). -/
def handle_photo (st : BotState) (uid : UserId) (fid fpath : String) :
    BotState × Msg :=
  match st uid with
  | none => (st, .silent)
  | some s =>
    if s.step = .photos then
      (setSession st uid (some
         { step := s.step
           report_data := { s.report_data with
             photos := some (s.report_data.photos.getD [] ++
               [{ file_id := fid, file_path := fpath }]) } }),
       .photoReceived)
    else (st, .silent)

/-! ### Concrete fixtures used by witnesses and counterexamples -/

/-- The empty session map. -/
def noSessions : BotState := fun _ => none

/-- A complete `report_data` dict, as a finished Standard dialog produces. -/
def drFull : ReportData :=
  { user_id := some 7, username := some "alice", disaster_type := some "Flood"
    severity := some "High", latitude := some 12, longitude := some 77
    description := some "street flooded", photos := some [] }

/-- A session that has reached the `photos` step with a complete draft. -/
def sessReady : Session := { step := .photos, report_data := drFull }

/-- A session map holding only user 7, ready to submit. -/
def stReady : BotState := fun u => if u = 7 then some sessReady else none

/-! ### Helper lemmas -/

/-- With `insertOk = false` the report service never yields a report
(either a required key was absent, or the insert returned no rows). -/
theorem service_create_report_false (rid : String) (d : ReportData) :
    service_create_report rid d false = none := by
  unfold service_create_report
  rcases d with ⟨uid, un, dt, sev, lat, lng, desc, ph⟩
  rcases uid with _ | uid <;> rcases dt with _ | dt <;> rcases sev with _ | sev <;>
    rcases lat with _ | lat <;> rcases lng with _ | lng <;> rfl

/-- When the backend insert fails, `create_report` answers 400 or 500,
never 201. -/
theorem create_report_false_not_201 (d : ReportData) (rid : String)
    (aok : Bool) : (create_report d rid false aok).status ≠ 201 := by
  unfold create_report
  rcases h : missingRequired d <;>
    simp [service_create_report_false]

/-- The HTTP answer of `create_report` does not depend on the outcome of
the alert insert: app.py discards `trigger_emergency_alert`'s result. -/
theorem create_report_ignores_alert_outcome (d : ReportData) (rid : String)
    (iok : Bool) (a b : Bool) :
    (create_report d rid iok a).status = (create_report d rid iok b).status ∧
    (create_report d rid iok a).report = (create_report d rid iok b).report := by
  unfold create_report
  rcases missingRequired d <;> simp <;>
    rcases service_create_report rid d iok with _ | r <;> simp <;>
    rcases h : decide (d.severity = some "Critical") <;> simp_all

/-- With every required field present and a successful insert,
`create_report` answers 201. -/
theorem create_report_success_201 (d : ReportData) (rid : String)
    (aok : Bool) (h : missingRequired d = false) :
    (create_report d rid true aok).status = 201 := by
  unfold create_report service_create_report
  rcases d with ⟨uid, un, dt, sev, lat, lng, desc, ph⟩
  rcases uid with _ | uid <;> rcases dt with _ | dt <;> rcases sev with _ | sev <;>
    rcases lat with _ | lat <;> rcases lng with _ | lng <;>
    simp_all [missingRequired] <;>
    rcases hc : decide (some sev = some "Critical") <;> simp_all

/-! ### Claims -/

/-- C1: the spec's emergency fast path — enter Emergency mode, send one
valid coordinate pair, and the report is finalized and submitted
immediately, skipping Describe/AttachMedia.  The source writes
`session['step'] = 'description'` (telegram_bot.py line 202) before testing
`session['step'] == 'emergency_location'` (line 211), so the auto-submit
branch its own comment announces ("For emergency reports, submit
immediately") is unreachable: after `/emergency` and a location, no backend
call happens, the bot asks for a description, and the session sits at step
`description`. -/
theorem C1_emergency_location_does_not_submit :
    ((handle_location (emergency_report noSessions 7 "alice").1 7 12 77
        "R1" true true).api = none) ∧
    ((handle_location (emergency_report noSessions 7 "alice").1 7 12 77
        "R1" true true).msg = Msg.descriptionPrompt) ∧
    ((handle_location (emergency_report noSessions 7 "alice").1 7 12 77
        "R1" true true).state 7 = some
      { step := .description
        report_data := { user_id := some 7, username := some "alice"
                         disaster_type := some "Emergency"
                         severity := some "Critical"
                         latitude := some 12, longitude := some 77 } }) :=
  ⟨rfl, rfl, rfl⟩

/-- C2 counterexample: the claim says a failed Report Store create leaves
the session undeleted.  With user 7 holding a complete draft and the insert
failing, the bot reports the submission error but the `finally` clause has
deleted the session. -/
theorem C2_counterexample_session_deleted_on_failure :
    (submit_report stReady 7 "R1" false true).msg = Msg.submitError ∧
    (submit_report stReady 7 "R1" false true).state 7 = none :=
  ⟨rfl, rfl⟩

/-- C2 amended: whenever a session exists and the Report Store create
fails, the submission reports the failure to the user and the session IS
deleted (the `finally` clause clears it unconditionally), so a retry has to
restart the dialog. -/
theorem C2_submit_failure_reports_and_deletes (st : BotState) (uid : UserId)
    (rid : String) (aok : Bool) (s : Session) (h : st uid = some s) :
    (submit_report st uid rid false aok).msg = Msg.submitError ∧
    (submit_report st uid rid false aok).state uid = none := by
  unfold submit_report
  rw [h]
  simp only [setSession]
  refine ⟨?_, by simp⟩
  have := create_report_false_not_201 s.report_data rid aok
  simp [this]

/-- C2 witness: the amended behaviour at the concrete fixture. -/
theorem C2_witness_submit_failure :
    (submit_report stReady 7 "R9" false false).msg = Msg.submitError ∧
    (submit_report stReady 7 "R9" false false).state 7 = none :=
  C2_submit_failure_reports_and_deletes stReady 7 "R9" false sessReady rfl

/-- The draft of a Standard dialog that has just shared its location
(description and photos still unset). -/
def drAfterLoc : ReportData :=
  { user_id := some 7, username := some "alice", disaster_type := some "Flood"
    severity := some "High", latitude := some 12, longitude := some 77 }

/-- A session map holding only user 7, at step `description`. -/
def stAtDescription : BotState :=
  fun u => if u = 7 then
    some { step := .description, report_data := drAfterLoc } else none

/-- C4: the claim says a cancel event from any step deletes the session.
The keyboard shown after the location step offers a "Cancel" button
(telegram_bot.py line 207), but no handler recognises it: at step
`description`, sending "Cancel" is stored as the description text and the
dialog advances to `photos`, session intact. -/
theorem C4_cancel_is_stored_as_description :
    ((handle_message stAtDescription 7 "alice" "Cancel" "R1" true true).state 7
      = some { step := .photos
               report_data := { drAfterLoc with description := some "Cancel" } }) ∧
    ((handle_message stAtDescription 7 "alice" "Cancel" "R1" true true).msg
      = Msg.photosPrompt) :=
  ⟨rfl, rfl⟩

/-- A request whose disaster type and severity lie outside the declared
enumerations, but whose required keys are all present. -/
def drBadEnum : ReportData :=
  { user_id := some 7, username := some "alice", disaster_type := some "Bogus"
    severity := some "Whatever", latitude := some 12, longitude := some 77
    description := some "d", photos := some [] }

/-- C5 counterexample: the claim says a Report is never constructed with
`disasterType` outside the disaster-type enumeration or `severity` outside
{Low, Medium, High, Critical}.  `app.create_report` only checks key
presence, so a request carrying `severity = "Whatever"` and
`disaster_type = "Bogus"` is stored verbatim. -/
theorem C5_counterexample_enum_not_checked :
    ((create_report drBadEnum "R1" true true).report.map Report.severity
      = some "Whatever") ∧
    ((create_report drBadEnum "R1" true true).report.map
        Report.disaster_type = some "Bogus") ∧
    (create_report drBadEnum "R1" true true).status = 201 ∧
    "Whatever" ∉ SEVERITY_LEVELS ∧ "Bogus" ∉ DISASTER_TYPES := by
  refine ⟨rfl, rfl, rfl, by decide, by decide⟩

/-- C5 amended: a finalized Report is never constructed with a missing
user id, disaster type, severity, latitude or longitude — every stored
Report copies those values from a request that carried all of them — but no
enumeration-membership check is applied to `disaster_type` or `severity`. -/
theorem C5_report_fields_from_input (d : ReportData) (rid : String)
    (iok aok : Bool) (r : Report)
    (h : (create_report d rid iok aok).report = some r) :
    d.user_id.isSome ∧
    d.disaster_type = some r.disaster_type ∧
    d.severity = some r.severity ∧
    d.latitude = some r.latitude ∧
    d.longitude = some r.longitude := by
  unfold create_report service_create_report at h
  rcases d with ⟨uid, un, dt, sev, lat, lng, desc, ph⟩
  rcases uid with _ | uid <;> rcases dt with _ | dt <;> rcases sev with _ | sev <;>
    rcases lat with _ | lat <;> rcases lng with _ | lng <;>
    cases iok <;>
    simp_all [missingRequired] <;>
    rcases hc : decide (some sev = some "Critical") <;> simp_all <;>
    rcases h with ⟨rfl⟩ <;> simp

/-- C5 witness: the amended theorem at the complete fixture. -/
theorem C5_witness_report_fields :
    drFull.user_id.isSome ∧
    drFull.disaster_type = some "Flood" ∧
    drFull.severity = some "High" ∧
    drFull.latitude = some 12 ∧
    drFull.longitude = some 77 :=
  C5_report_fields_from_input drFull "R1" true true
    { id := "R1", user_id := "7", username := "alice"
      disaster_type := "Flood", severity := "High"
      latitude := 12, longitude := 77, description := "street flooded"
      photos := [], status := "Pending", source := "Telegram Bot" } rfl

/-- A Standard-mode request with no description key at all. -/
def drNoDesc : ReportData :=
  { user_id := some 7, username := some "alice", disaster_type := some "Flood"
    severity := some "High", latitude := some 12, longitude := some 77 }

/-- C6 counterexample: the claim says finalize rejects a Standard-mode
draft whose description is missing.  `app.create_report` never requires the
description: the request below carries none and is accepted with 201, the
stored description defaulting to the empty string. -/
theorem C6_counterexample_description_not_required :
    drNoDesc.description = none ∧
    drNoDesc.disaster_type = some "Flood" ∧
    (create_report drNoDesc "R1" true true).status = 201 ∧
    ((create_report drNoDesc "R1" true true).report.map Report.description
      = some "") :=
  ⟨rfl, rfl, rfl, rfl⟩

/-- C6 amended: `create_report` rejects with a validation error (400)
exactly when one of user id, disaster type, severity, latitude or longitude
is absent, independent of mode; the description and the attachments are
never required and default to empty values. -/
theorem C6_validation_iff_missing_core_field (d : ReportData) (rid : String)
    (iok aok : Bool) :
    (create_report d rid iok aok).status = 400 ↔
      (d.user_id = none ∨ d.disaster_type = none ∨ d.severity = none ∨
       d.latitude = none ∨ d.longitude = none) := by
  unfold create_report service_create_report
  rcases d with ⟨uid, un, dt, sev, lat, lng, desc, ph⟩
  rcases uid with _ | uid <;> rcases dt with _ | dt <;> rcases sev with _ | sev <;>
    rcases lat with _ | lat <;> rcases lng with _ | lng <;>
    cases iok <;>
    simp_all [missingRequired] <;>
    rcases hc : decide (some sev = some "Critical") <;> simp_all

/-- C6 witness: both directions of the amended theorem at concrete
requests. -/
theorem C6_witness_validation :
    ((create_report drFull "R1" true true).status = 400 ↔
      (drFull.user_id = none ∨ drFull.disaster_type = none ∨
       drFull.severity = none ∨ drFull.latitude = none ∨
       drFull.longitude = none)) :=
  C6_validation_iff_missing_core_field drFull "R1" true true

/-- C7: for every stored Report, the alert trigger runs exactly once when
the Report's severity is Critical and zero times otherwise, and it never
runs when the store call fails (no stored report). -/
theorem C7_alert_trigger_count (d : ReportData) (rid : String)
    (iok aok : Bool) :
    (create_report d rid iok aok).alertCalls =
      match (create_report d rid iok aok).report with
      | some r => if r.severity = "Critical" then 1 else 0
      | none => 0 := by
  unfold create_report service_create_report
  rcases d with ⟨uid, un, dt, sev, lat, lng, desc, ph⟩
  rcases uid with _ | uid <;> rcases dt with _ | dt <;> rcases sev with _ | sev <;>
    rcases lat with _ | lat <;> rcases lng with _ | lng <;>
    cases iok <;>
    simp_all [missingRequired] <;>
    rcases hc : decide (some sev = some "Critical") <;> simp_all

/-- C8: a failed alert trigger is logged only.  The HTTP status and body of
`create_report` are identical whether the alert insert succeeds or fails,
the bot's reply to the reporting user is likewise identical, and with the
store call succeeding the submission still answers 201 even when the alert
insert fails. -/
theorem C8_alert_failure_never_surfaced (d : ReportData) (rid : String)
    (iok : Bool) (st : BotState) (uid : UserId) :
    (create_report d rid iok false).status
      = (create_report d rid iok true).status ∧
    (create_report d rid iok false).report
      = (create_report d rid iok true).report ∧
    (submit_report st uid rid iok false).msg
      = (submit_report st uid rid iok true).msg ∧
    (missingRequired d = false →
      (create_report d rid true false).status = 201) := by
  refine ⟨(create_report_ignores_alert_outcome d rid iok false true).1,
          (create_report_ignores_alert_outcome d rid iok false true).2,
          ?_, fun h => create_report_success_201 d rid false h⟩
  unfold submit_report
  rcases st uid with _ | s
  · rfl
  · simp only
    rw [(create_report_ignores_alert_outcome s.report_data rid iok
      false true).1]

/-- C8 witness: the conditional part at a complete request with the store
succeeding and the alert insert failing. -/
theorem C8_witness_alert_failure :
    (create_report drFull "R1" true false).status = 201 :=
  (C8_alert_failure_never_surfaced drFull "R1" true noSessions 7).2.2.2 rfl

/-! ### Step lemmas for the dialog handlers -/

/-- Reading back the session just written. -/
theorem setSession_same (st : BotState) (uid : UserId) (s : Option Session) :
    setSession st uid s uid = s := by
  simp [setSession]

/-- Two successive writes to the same user collapse to the second one. -/
theorem setSession_override (st : BotState) (uid : UserId)
    (a b : Option Session) :
    setSession (setSession st uid a) uid b = setSession st uid b := by
  funext u
  unfold setSession
  by_cases h : u = uid <;> simp [h]

/-- A `type_`-prefixed callback stores the stripped payload and moves to
step `severity`. -/
theorem button_callback_type_sel (st : BotState) (uid : UserId)
    (s : Session) (data : String) (h : st uid = some s)
    (hp : pyStartsWith data "type_" = true) :
    (button_callback st uid data).1 = setSession st uid (some
      { step := .severity
        report_data := { s.report_data with
          disaster_type := some (pyReplace data "type_" "") } }) := by
  unfold button_callback
  rw [h]
  simp [hp]

/-- A `severity_`-prefixed callback stores the stripped payload and moves
to step `location`. -/
theorem button_callback_severity_sel (st : BotState) (uid : UserId)
    (s : Session) (data : String) (h : st uid = some s)
    (hp : pyStartsWith data "type_" = false)
    (hps : pyStartsWith data "severity_" = true) :
    (button_callback st uid data).1 = setSession st uid (some
      { step := .location
        report_data := { s.report_data with
          severity := some (pyReplace data "severity_" "") } }) := by
  unfold button_callback
  rw [h]
  simp [hp, hps]

/-- With a session present, a location event stores the coordinates — no
range check — moves to step `description`, prompts for the description, and
never reaches the backend. -/
theorem handle_location_run (st : BotState) (uid : UserId) (lat lng : ℚ)
    (rid : String) (iok aok : Bool) (s : Session) (h : st uid = some s) :
    handle_location st uid lat lng rid iok aok =
      { state := setSession st uid (some
          { step := .description
            report_data := { s.report_data with
              latitude := some lat, longitude := some lng } })
        msg := .descriptionPrompt, api := none } := by
  unfold handle_location
  rw [h]
  simp

/-- With a session at step `description`, any text that is not one of the
four menu buttons nor the skip sentinel is stored as the description and
the step moves to `photos`. -/
theorem handle_message_description_run (st : BotState) (uid : UserId)
    (uname text rid : String) (iok aok : Bool) (s : Session)
    (h : st uid = some s) (hstep : s.step = .description)
    (h1 : text ≠ "🚨 Report Disaster") (h2 : text ≠ "🆘 Emergency")
    (h3 : text ≠ "ℹ️ Help") (h4 : text ≠ "📊 My Reports")
    (h5 : text ≠ "Skip Description") :
    handle_message st uid uname text rid iok aok =
      { state := setSession st uid (some
          { step := .photos
            report_data := { s.report_data with description := some text } })
        msg := .photosPrompt, api := none } := by
  unfold handle_message
  rw [if_neg h1, if_neg h2, if_neg h3, if_neg h4, h]
  simp [hstep, h5]

/-- With a session past the `description` step, the text "Submit Report"
submits. -/
theorem handle_message_submit_run (st : BotState) (uid : UserId)
    (uname rid : String) (iok aok : Bool) (s : Session)
    (h : st uid = some s) (hstep : s.step ≠ .description) :
    handle_message st uid uname "Submit Report" rid iok aok =
      submit_report st uid rid iok aok := by
  unfold handle_message
  rw [h]
  simp [hstep]

/-- With a session present, submitting posts the draft to the backend,
replies according to the HTTP status, and deletes the session. -/
theorem submit_report_run (st : BotState) (uid : UserId) (rid : String)
    (iok aok : Bool) (s : Session) (h : st uid = some s) :
    submit_report st uid rid iok aok =
      { state := setSession st uid none
        msg := if (create_report s.report_data rid iok aok).status = 201
               then .submitSuccess else .submitError
        api := some (create_report s.report_data rid iok aok) } := by
  unfold submit_report
  rw [h]

/-- A session map holding only user 7, at the initial Standard step. -/
def stAtType : BotState :=
  fun u => if u = 7 then
    some { step := .disaster_type
           report_data := { user_id := some 7, username := some "alice" } }
  else none

/-- C3 counterexample: the claim says an out-of-enumeration selection
yields `InvalidInput` and leaves the session unchanged.  The callback
handler never checks enumeration membership: payload `type_Bogus` is stored
verbatim and the step advances to `severity` with the ordinary reprompt,
although "Bogus" is outside the disaster-type enumeration. -/
theorem C3_counterexample_out_of_enum_accepted :
    ((button_callback stAtType 7 "type_Bogus").1 7 = some
      { step := .severity
        report_data := { user_id := some 7, username := some "alice"
                         disaster_type := some "Bogus" } }) ∧
    (button_callback stAtType 7 "type_Bogus").2 = Msg.severityPrompt ∧
    "Bogus" ∉ DISASTER_TYPES := by
  exact ⟨rfl, rfl, by decide⟩

/-- C3 amended: a callback whose payload carries neither the `type_` nor
the `severity_` prefix leaves every session's step and draft unchanged (and
no `InvalidInput` reply exists — the handler answers nothing at all);
prefixed payloads are stored without enumeration checks, and a coordinate
pair is stored without any range check on latitude or longitude. -/
theorem C3_unmatched_payload_unchanged :
    (∀ (st : BotState) (uid : UserId) (data : String),
      pyStartsWith data "type_" = false →
      pyStartsWith data "severity_" = false →
      (button_callback st uid data).1 = st ∧
      (button_callback st uid data).2 ≠ Msg.severityPrompt ∧
      (button_callback st uid data).2 ≠ Msg.locationPrompt) ∧
    (∀ (st : BotState) (uid : UserId) (s : Session) (lat lng : ℚ)
       (rid : String) (iok aok : Bool), st uid = some s →
      (handle_location st uid lat lng rid iok aok).state uid = some
        { step := .description
          report_data := { s.report_data with
            latitude := some lat, longitude := some lng } }) := by
  constructor
  · intro st uid data h1 h2
    unfold button_callback
    rcases h : st uid with _ | s
    · exact ⟨rfl, by simp, by simp⟩
    · simp [h1, h2]
  · intro st uid s lat lng rid iok aok h
    rw [handle_location_run st uid lat lng rid iok aok s h]
    exact setSession_same st uid _

/-- C3 witness: an unrecognised payload changes nothing, and an
out-of-range coordinate pair (latitude 200, longitude 300) is stored
anyway. -/
theorem C3_witness_unmatched_payload :
    ((button_callback stAtType 7 "garbage").1 = stAtType) ∧
    ((handle_location stAtType 7 200 300 "R1" true true).state 7 = some
      { step := .description
        report_data := { user_id := some 7, username := some "alice"
                         latitude := some 200, longitude := some 300 } }) :=
  ⟨(C3_unmatched_payload_unchanged.1 stAtType 7 "garbage" rfl rfl).1,
   C3_unmatched_payload_unchanged.2 stAtType 7
     { step := .disaster_type
       report_data := { user_id := some 7, username := some "alice" } }
     200 300 "R1" true true rfl⟩

/-- C10: a photo event appends to the draft's photo list exactly when the
session sits at step `photos` — and then touches nothing else — while a
photo for a user without a session, or in any other step, leaves every
session's step and draft unchanged. -/
theorem C10_photo_only_at_photos_step (st : BotState) (uid : UserId)
    (fid fpath : String) :
    (st uid = none → (handle_photo st uid fid fpath).1 = st) ∧
    (∀ s, st uid = some s → s.step ≠ .photos →
      (handle_photo st uid fid fpath).1 = st) ∧
    (∀ s, st uid = some s → s.step = .photos →
      ((handle_photo st uid fid fpath).1 uid = some
        { step := .photos
          report_data := { s.report_data with
            photos := some (s.report_data.photos.getD [] ++
              [{ file_id := fid, file_path := fpath }]) } }) ∧
      (∀ u, u ≠ uid → (handle_photo st uid fid fpath).1 u = st u)) := by
  refine ⟨?_, ?_, ?_⟩
  · intro h
    unfold handle_photo
    rw [h]
  · intro s h hs
    unfold handle_photo
    rw [h]
    simp [hs]
  · intro s h hs
    unfold handle_photo
    rw [h]
    constructor
    · simp [hs, setSession]
    · intro u hu
      simp [hs, setSession, hu]

/-- C10 witness: a photo at the `photos` step is appended for user 7 and
user 8's (absent) session is untouched. -/
theorem C10_witness_photo :
    ((handle_photo stReady 7 "F1" "P1").1 7 = some
      { step := .photos
        report_data := { drFull with
          photos := some [{ file_id := "F1", file_path := "P1" }] } }) ∧
    (handle_photo stReady 7 "F1" "P1").1 8 = stReady 8 :=
  ⟨((C10_photo_only_at_photos_step stReady 7 "F1" "P1").2.2 sessReady
      rfl rfl).1,
   ((C10_photo_only_at_photos_step stReady 7 "F1" "P1").2.2 sessReady
      rfl rfl).2 8 (by decide)⟩

/-- The keyboard the bot builds sends `type_<name>` as callback payload;
stripping the prefix recovers the name, for every declared disaster type. -/
theorem type_payload_round (dt : String) (h : dt ∈ DISASTER_TYPES) :
    pyStartsWith ("type_" ++ dt) "type_" = true ∧
    pyReplace ("type_" ++ dt) "type_" "" = dt := by
  fin_cases h <;> exact ⟨rfl, rfl⟩

/-- Likewise for `severity_<level>`, which also never carries the `type_`
prefix. -/
theorem severity_payload_round (sev : String) (h : sev ∈ SEVERITY_LEVELS) :
    pyStartsWith ("severity_" ++ sev) "type_" = false ∧
    pyStartsWith ("severity_" ++ sev) "severity_" = true ∧
    pyReplace ("severity_" ++ sev) "severity_" "" = sev := by
  fin_cases h <;> exact ⟨rfl, rfl, rfl⟩

/-- The Standard dialog driven end to end for one user: `/report`, a
disaster-type button, a severity button, a location, a description text,
then "Submit Report" (no photos sent; they are optional). -/
def standardRun (st : BotState) (uid : UserId) (uname dt sev : String)
    (lat lng : ℚ) (desc rid : String) (aok : Bool) : SubmitOut :=
  handle_message
    ((handle_message
       ((handle_location
          ((button_callback
             ((button_callback
                ((start_report st uid uname).1)
                uid ("type_" ++ dt)).1)
             uid ("severity_" ++ sev)).1)
          uid lat lng rid true aok).state)
       uid uname desc rid true aok).state)
    uid uname "Submit Report" rid true aok

/-- C9: every run of the Standard path in order, with a declared disaster
type and severity and a description that is not one of the reserved button
texts, yields a 201 submission whose stored Report carries exactly the
entered values with status `Pending`, and the session is gone afterwards. -/
theorem C9_standard_path_report (st : BotState) (uid : UserId)
    (uname dt sev : String) (lat lng : ℚ) (desc rid : String) (aok : Bool)
    (hdt : dt ∈ DISASTER_TYPES) (hsev : sev ∈ SEVERITY_LEVELS)
    (hd1 : desc ≠ "🚨 Report Disaster") (hd2 : desc ≠ "🆘 Emergency")
    (hd3 : desc ≠ "ℹ️ Help") (hd4 : desc ≠ "📊 My Reports")
    (hd5 : desc ≠ "Skip Description") :
    (standardRun st uid uname dt sev lat lng desc rid aok).msg
      = Msg.submitSuccess ∧
    ((standardRun st uid uname dt sev lat lng desc rid aok).api.map
       ApiResult.status = some 201) ∧
    ((standardRun st uid uname dt sev lat lng desc rid aok).api.bind
       ApiResult.report = some
      { id := rid, user_id := toString uid, username := uname
        disaster_type := dt, severity := sev, latitude := lat
        longitude := lng, description := desc, photos := []
        status := "Pending", source := "Telegram Bot" }) ∧
    (standardRun st uid uname dt sev lat lng desc rid aok).state uid
      = none := by
  obtain ⟨hp1, hr1⟩ := type_payload_round dt hdt
  obtain ⟨hq1, hq2, hr2⟩ := severity_payload_round sev hsev
  unfold standardRun
  rw [show (start_report st uid uname).1 = setSession st uid (some
    { step := Step.disaster_type
      report_data := { user_id := some uid, username := some uname } })
    from rfl]
  rw [button_callback_type_sel _ uid _ _ (setSession_same _ _ _) hp1, hr1,
    setSession_override]
  rw [button_callback_severity_sel _ uid _ _ (setSession_same _ _ _)
    hq1 hq2, hr2, setSession_override]
  rw [handle_location_run _ uid lat lng rid true aok _
    (setSession_same _ _ _)]
  dsimp only
  rw [setSession_override]
  rw [handle_message_description_run _ uid uname desc rid true aok _
    (setSession_same _ _ _) rfl hd1 hd2 hd3 hd4 hd5]
  dsimp only
  rw [setSession_override]
  rw [handle_message_submit_run _ uid uname rid true aok _
    (setSession_same _ _ _) (by simp)]
  rw [submit_report_run _ uid rid true aok _ (setSession_same _ _ _)]
  dsimp only
  rw [setSession_override, setSession_same]
  unfold create_report service_create_report missingRequired
  by_cases hc : sev = "Critical" <;> simp [hc]

/-- C9 witness: the spec's worked example — `type=Flood, severity=High,
loc=(12.9,77.6), desc="street flooded"`, no photos, submit. -/
theorem C9_witness_standard_path :
    (standardRun noSessions 7 "alice" "Flood" "High" (129/10) (776/10)
       "street flooded" "R1" true).msg = Msg.submitSuccess ∧
    ((standardRun noSessions 7 "alice" "Flood" "High" (129/10) (776/10)
       "street flooded" "R1" true).api.map ApiResult.status = some 201) ∧
    ((standardRun noSessions 7 "alice" "Flood" "High" (129/10) (776/10)
       "street flooded" "R1" true).api.bind ApiResult.report = some
      { id := "R1", user_id := toString (7 : UserId), username := "alice"
        disaster_type := "Flood", severity := "High", latitude := 129/10
        longitude := 776/10, description := "street flooded", photos := []
        status := "Pending", source := "Telegram Bot" }) ∧
    (standardRun noSessions 7 "alice" "Flood" "High" (129/10) (776/10)
       "street flooded" "R1" true).state 7 = none :=
  C9_standard_path_report noSessions 7 "alice" "Flood" "High" (129/10)
    (776/10) "street flooded" "R1" true (by decide) (by decide)
    (by decide) (by decide) (by decide) (by decide) (by decide)

end SSBot
